import Mathlib

/-!
Verification of the debezium-platform deployment-configuration compiler and
connection-validation framework, shallowly embedded from the Java sources of
the conductor module.

Modelling conventions:
* Java `String` is Lean `String`; a nullable `String` is `Option String`.
* Java maps `Map<String, String>` appear as association lists or as
  `String → Option String` where extensional reasoning is needed.
* Methods that can throw are embedded as `Except String _`, the error
  message carrying the Java exception's message.
* Character classes are expressed through `Char.toNat` code points, so the
  regex classes `[a-z]`, `[0-9]`, `_` of the source are literal ranges.
-/

namespace DebeziumPlatform

/-! ## TableNameResolver (environment/operator/configuration/TableNameResolver.java)

The repository carries two generations of this class: the suffix-based
`resolve(pipeline, offsetSuffix)` used by the storage configuration
factories, and the placeholder-based `resolve(pipeline, currentValue)` used
by `OperatorPipelineController`.  Both share `sanitizeTableName`. -/

/-- The `[a-z0-9_]`, the class kept by `replaceAll("[^a-z0-9_]", "_")`
(code points: 97..122 lowercase letters, 48..57 digits, 95 underscore). -/
def isAllowedChar (c : Char) : Bool :=
  (97 ≤ c.toNat && c.toNat ≤ 122) || (48 ≤ c.toNat && c.toNat ≤ 57) || c.toNat == 95

/-- The `[a-z_]`, the class of `matches("^[a-z_].*")` on the first character. -/
def isLetterOrUnderscoreChar (c : Char) : Bool :=
  (97 ≤ c.toNat && c.toNat ≤ 122) || c.toNat == 95

/-- The `[0-9]`. -/
def isDigitChar (c : Char) : Bool :=
  48 ≤ c.toNat && c.toNat ≤ 57

/-- The `sanitized.replaceAll("[^a-z0-9_]", "_")`. -/
def replaceInvalid (l : List Char) : List Char :=
  l.map (fun c => if isAllowedChar c then c else '_')

/-- The `sanitized.matches("^[a-z_].*")`: at least one character and the first
in `[a-z_]`. -/
def startsWithLetterOrUnderscore : List Char → Bool
  | [] => false
  | c :: _ => isLetterOrUnderscoreChar c

/-- The `if (!sanitized.matches("^[a-z_].*")) sanitized = "_" + sanitized`. -/
def prependIfNeeded (l : List Char) : List Char :=
  if startsWithLetterOrUnderscore l then l else '_' :: l

/-- The `sanitized.replaceAll("_+", "_")`: each maximal run of underscores
becomes a single underscore. -/
def collapseUnderscores : List Char → List Char
  | [] => []
  | [c] => [c]
  | a :: b :: rest =>
      if a == '_' && b == '_' then collapseUnderscores (b :: rest)
      else a :: collapseUnderscores (b :: rest)

/-- The `sanitized.replaceAll("_$", "")`: remove one trailing underscore. -/
def dropTrailingUnderscore (l : List Char) : List Char :=
  if l.getLast? == some '_' then l.dropLast else l

/-- The `if (sanitized.length() > 63) { substring(0, 63); replaceAll("_$", "") }`. -/
def truncate63 (l : List Char) : List Char :=
  if 63 < l.length then dropTrailingUnderscore (l.take 63) else l

/-- The sanitization pipeline of `sanitizeTableName` after the null/empty
guard, in the source's statement order: lowercase, replace the characters
outside `[a-z0-9_]`, ensure a `[a-z_]` start, collapse underscore runs,
strip one trailing underscore, truncate to 63 with one more strip. -/
def sanitizeCore (l : List Char) : List Char :=
  truncate63 (dropTrailingUnderscore (collapseUnderscores
    (prependIfNeeded (replaceInvalid (l.map Char.toLower)))))

/-- The `TableNameResolver.sanitizeTableName`; `IllegalArgumentException` on a
null or empty table name is the `Except.error` case. -/
def sanitizeTableName (tableName : Option String) : Except String String :=
  match tableName with
  | none => .error "Table name cannot be null or empty"
  | some s =>
      if s.isEmpty then .error "Table name cannot be null or empty"
      else .ok (String.mk (sanitizeCore s.data))

/-- The `PipelineFlat` as the resolver and the factories read it: an identity
and a (nullable) name. -/
structure PipelineFlat where
  id : Nat
  name : Option String
  deriving Repr, DecidableEq

/-- Suffix-based `resolve`:
`String.format("%s_%s", sanitizeTableName(pipeline.getName()), offsetSuffix)`. -/
def resolveSuffix (p : PipelineFlat) (offsetSuffix : String) : Except String String := do
  let base ← sanitizeTableName p.name
  return base ++ "_" ++ offsetSuffix

/-- Placeholder-based `resolve`: a null/empty `currentValue` is returned
unchanged; otherwise every occurrence of the `@\x7bpipeline_name\x7d`
placeholder is replaced by the pipeline's name and the result sanitized.
Replacing with a null name raises, as `replaceAll` would. -/
def resolveTemplate (p : PipelineFlat) (currentValue : Option String) :
    Except String (Option String) :=
  match currentValue with
  | none => .ok none
  | some v =>
      if v.isEmpty then .ok (some v)
      else
        match p.name with
        | none => .error "java.lang.NullPointerException"
        | some n => do
            let processed := v.replace "@\x7bpipeline_name\x7d" n
            let r ← sanitizeTableName (some processed)
            return some r

/-! ### Sanitization lemmas -/

theorem underscore_allowed : isAllowedChar '_' = true := by decide

theorem replaceInvalid_allowed {l : List Char} :
    ∀ c ∈ replaceInvalid l, isAllowedChar c = true := by
  intro c hc
  simp only [replaceInvalid, List.mem_map] at hc
  obtain ⟨a, -, rfl⟩ := hc
  by_cases h : isAllowedChar a = true
  · rw [if_pos h]; exact h
  · rw [if_neg h]; exact underscore_allowed

theorem prependIfNeeded_mem {l : List Char} :
    ∀ c ∈ prependIfNeeded l, c ∈ l ∨ c = '_' := by
  intro c hc
  unfold prependIfNeeded at hc
  split at hc
  · exact Or.inl hc
  · rcases List.mem_cons.mp hc with h | h
    · exact Or.inr h
    · exact Or.inl h

theorem prependIfNeeded_head {l : List Char} {c : Char}
    (h : (prependIfNeeded l).head? = some c) : isLetterOrUnderscoreChar c = true := by
  unfold prependIfNeeded at h
  split at h
  · rename_i hs
    cases l with
    | nil => simp [startsWithLetterOrUnderscore] at hs
    | cons a t =>
        simp only [List.head?_cons, Option.some.injEq] at h
        subst h
        simpa [startsWithLetterOrUnderscore] using hs
  · simp only [List.head?_cons, Option.some.injEq] at h
    subst h
    decide

theorem collapseUnderscores_subset :
    ∀ l : List Char, ∀ c ∈ collapseUnderscores l, c ∈ l
  | [] => by simp [collapseUnderscores]
  | [a] => by simp [collapseUnderscores]
  | a :: b :: rest => by
      intro c hc
      simp only [collapseUnderscores] at hc
      split at hc
      · exact List.mem_cons_of_mem a (collapseUnderscores_subset (b :: rest) c hc)
      · rcases List.mem_cons.mp hc with h | h
        · simp [h]
        · exact List.mem_cons_of_mem a (collapseUnderscores_subset (b :: rest) c h)

theorem collapseUnderscores_head? :
    ∀ l : List Char, (collapseUnderscores l).head? = l.head?
  | [] => rfl
  | [_] => rfl
  | a :: b :: rest => by
      simp only [collapseUnderscores]
      split
      · rename_i h
        rw [collapseUnderscores_head? (b :: rest)]
        rw [Bool.and_eq_true, beq_iff_eq, beq_iff_eq] at h
        simp [h.1, h.2]
      · simp

theorem dropTrailingUnderscore_subset {l : List Char} :
    ∀ c ∈ dropTrailingUnderscore l, c ∈ l := by
  intro c hc
  unfold dropTrailingUnderscore at hc
  split at hc
  · exact (List.dropLast_sublist l).subset hc
  · exact hc

theorem head?_dropLast {l : List Char} {c : Char}
    (h : l.dropLast.head? = some c) : l.head? = some c := by
  match l with
  | [] => simp at h
  | [a] => simp at h
  | a :: b :: rest => simpa using h

theorem dropTrailingUnderscore_head? {l : List Char} {c : Char}
    (h : (dropTrailingUnderscore l).head? = some c) : l.head? = some c := by
  unfold dropTrailingUnderscore at h
  split at h
  · exact head?_dropLast h
  · exact h

theorem dropTrailingUnderscore_length {l : List Char} :
    (dropTrailingUnderscore l).length ≤ l.length := by
  unfold dropTrailingUnderscore
  split
  · simp only [List.length_dropLast]; omega
  · exact Nat.le_refl _

theorem head?_take {l : List Char} {n : Nat} {c : Char}
    (h : (l.take n).head? = some c) : l.head? = some c := by
  match n, l with
  | 0, _ => simp at h
  | _ + 1, [] => simp at h
  | _ + 1, a :: t => simpa using h

theorem truncate63_subset {l : List Char} : ∀ c ∈ truncate63 l, c ∈ l := by
  intro c hc
  unfold truncate63 at hc
  split at hc
  · exact List.take_subset 63 l (dropTrailingUnderscore_subset _ hc)
  · exact hc

theorem truncate63_head? {l : List Char} {c : Char}
    (h : (truncate63 l).head? = some c) : l.head? = some c := by
  unfold truncate63 at h
  split at h
  · exact head?_take (dropTrailingUnderscore_head? h)
  · exact h

theorem truncate63_length (l : List Char) : (truncate63 l).length ≤ 63 := by
  unfold truncate63
  split
  · calc (dropTrailingUnderscore (l.take 63)).length
        ≤ (l.take 63).length := dropTrailingUnderscore_length
      _ ≤ 63 := by simp [List.length_take]
  · omega

/-- Every character of the sanitized output lies in `[a-z0-9_]`. -/
theorem sanitizeCore_allowed {l : List Char} :
    ∀ c ∈ sanitizeCore l, isAllowedChar c = true := by
  intro c hc
  unfold sanitizeCore at hc
  have h1 := dropTrailingUnderscore_subset _ (truncate63_subset _ hc)
  have h2 := collapseUnderscores_subset _ _ h1
  rcases prependIfNeeded_mem _ h2 with h3 | h3
  · exact replaceInvalid_allowed _ h3
  · rw [h3]; exact underscore_allowed

/-- The sanitized output never starts with anything outside `[a-z_]`. -/
theorem sanitizeCore_head {l : List Char} {c : Char}
    (h : (sanitizeCore l).head? = some c) : isLetterOrUnderscoreChar c = true := by
  unfold sanitizeCore at h
  have h1 := dropTrailingUnderscore_head? (truncate63_head? h)
  rw [collapseUnderscores_head?] at h1
  exact prependIfNeeded_head h1

/-- The sanitized output holds at most 63 characters. -/
theorem sanitizeCore_length (l : List Char) : (sanitizeCore l).length ≤ 63 :=
  truncate63_length _

theorem letterOrUnderscore_not_digit {c : Char}
    (h : isLetterOrUnderscoreChar c = true) : isDigitChar c = false := by
  simp only [isLetterOrUnderscoreChar, Bool.or_eq_true, Bool.and_eq_true,
    decide_eq_true_eq, beq_iff_eq] at h
  simp only [isDigitChar]
  by_cases h1 : 48 ≤ c.toNat
  · by_cases h2 : c.toNat ≤ 57
    · exact absurd (And.intro h1 h2) (by omega)
    · simp [h2]
  · simp [h1]

theorem allowed_utf8Size {c : Char} (h : isAllowedChar c = true) :
    c.utf8Size = 1 := by
  simp only [isAllowedChar, Bool.or_eq_true, Bool.and_eq_true,
    decide_eq_true_eq, beq_iff_eq] at h
  have hn : c.toNat ≤ 122 := by omega
  unfold Char.utf8Size
  rw [if_pos]
  rw [UInt32.le_def, BitVec.le_def]
  have he : c.toNat = c.val.toBitVec.toNat := rfl
  have h127 : (UInt32.ofNatCore 0x7F (by decide)).toBitVec.toNat = 127 := rfl
  omega

theorem utf8ByteSize_go_eq_length {l : List Char}
    (h : ∀ c ∈ l, Char.utf8Size c = 1) : String.utf8ByteSize.go l = l.length := by
  induction l with
  | nil => rfl
  | cons c t ih =>
      have hc : Char.utf8Size c = 1 := h c (List.mem_cons_self c t)
      have ht := ih fun d hd => h d (List.mem_cons_of_mem c hd)
      simp only [String.utf8ByteSize.go, List.length_cons, ht, hc]

/-! ### Claims on TableNameResolver -/

/-- C6: for every non-empty input string accepted by `sanitizeTableName`,
the sanitized identifier holds at most 63 characters and 63 UTF-8 bytes,
contains only characters from `[a-z0-9_]`, never starts with a digit, and
is exactly the outcome of the source's six steps in order: lowercase,
replace out-of-class characters with underscore, prepend an underscore
when the start is not a letter or underscore, collapse underscore runs,
strip one trailing underscore, truncate to 63 stripping one more trailing
underscore. -/
theorem sanitize_safe_identifier (s : String) (r : String)
    (h : sanitizeTableName (some s) = .ok r) :
    r.data.length ≤ 63 ∧ r.utf8ByteSize ≤ 63 ∧
    (∀ c ∈ r.data, isAllowedChar c = true) ∧
    (∀ c, r.data.head? = some c → isDigitChar c = false) ∧
    r = String.mk (truncate63 (dropTrailingUnderscore (collapseUnderscores
      (prependIfNeeded (replaceInvalid (s.data.map Char.toLower)))))) := by
  have h' : (if s.isEmpty = true then (Except.error "Table name cannot be null or empty" : Except String String)
      else .ok (String.mk (sanitizeCore s.data))) = .ok r := h
  clear h
  split at h'
  · exact absurd h' (by simp)
  · rw [Except.ok.injEq] at h'
    subst h'
    refine ⟨sanitizeCore_length _, ?_, sanitizeCore_allowed, ?_, rfl⟩
    · show String.utf8ByteSize.go (sanitizeCore s.data) ≤ 63
      rw [utf8ByteSize_go_eq_length fun c hc => allowed_utf8Size (sanitizeCore_allowed c hc)]
      exact sanitizeCore_length _
    · intro c hc
      exact letterOrUnderscore_not_digit (sanitizeCore_head hc)

/-- Witness for C6 at the spec's end-to-end input `"Test Pipeline!"`,
whose sanitized form is `"test_pipeline"`. -/
theorem sanitize_safe_identifier_witness :
    "test_pipeline".data.length ≤ 63 ∧ "test_pipeline".utf8ByteSize ≤ 63 ∧
    (∀ c ∈ "test_pipeline".data, isAllowedChar c = true) ∧
    (∀ c, "test_pipeline".data.head? = some c → isDigitChar c = false) ∧
    "test_pipeline" = String.mk (truncate63 (dropTrailingUnderscore (collapseUnderscores
      (prependIfNeeded (replaceInvalid ("Test Pipeline!".data.map Char.toLower)))))) :=
  sanitize_safe_identifier "Test Pipeline!" "test_pipeline" rfl

/-- C5 counterexample: the pipelines named `"a!"` and `"a?"` have distinct
names yet receive identical generated offset-table identifiers, refuting
global distinctness across distinct names. -/
theorem resolve_distinct_names_collide :
    resolveSuffix ⟨1, some "a!"⟩ "offset" = resolveSuffix ⟨2, some "a?"⟩ "offset" ∧
    ("a!" : String) ≠ "a?" :=
  ⟨rfl, by decide⟩

/-- C5 (amended): generated storage identifiers are a pure function of the
pipeline name — pipelines with the same name receive identical identifiers
from both resolver generations — but distinct names may collide after
sanitization. -/
theorem resolve_pure_function_of_name (p q : PipelineFlat) (h : p.name = q.name) :
    (∀ suffix, resolveSuffix p suffix = resolveSuffix q suffix) ∧
    (∀ v, resolveTemplate p v = resolveTemplate q v) := by
  constructor
  · intro suffix
    unfold resolveSuffix
    rw [h]
  · intro v
    unfold resolveTemplate
    rw [h]

/-- Witness for C5 (amended): two pipelines with different identities but
the same name resolve identically. -/
theorem resolve_pure_function_of_name_witness :
    (∀ suffix, resolveSuffix ⟨1, some "A"⟩ suffix = resolveSuffix ⟨2, some "A"⟩ suffix) ∧
    (∀ v, resolveTemplate ⟨1, some "A"⟩ v = resolveTemplate ⟨2, some "A"⟩ v) :=
  resolve_pure_function_of_name ⟨1, some "A"⟩ ⟨2, some "A"⟩ rfl

/-- C8 counterexample: the placeholder-based `resolve` returns a null or
empty table name base unchanged — it does not fail. -/
theorem resolveTemplate_empty_no_failure :
    resolveTemplate ⟨1, some "x"⟩ (some "") = .ok (some "") ∧
    resolveTemplate ⟨1, some "x"⟩ none = .ok none :=
  ⟨rfl, rfl⟩

/-- C8 (amended): `resolve(pipeline, currentValue)` passes a null/empty
value through unchanged; the InvalidArgument failure lives in
`sanitizeTableName`, and therefore in the suffix-based `resolve` whenever
the pipeline's name is null or empty. -/
theorem null_empty_table_name_handling (p : PipelineFlat) (v : Option String)
    (hv : v = none ∨ v = some "") :
    resolveTemplate p v = .ok v ∧
    sanitizeTableName v = .error "Table name cannot be null or empty" ∧
    ((p.name = none ∨ p.name = some "") →
      ∀ suffix, resolveSuffix p suffix = .error "Table name cannot be null or empty") := by
  have hname : (p.name = none ∨ p.name = some "") →
      ∀ suffix, resolveSuffix p suffix = .error "Table name cannot be null or empty" := by
    rintro (hn | hn) suffix <;> · unfold resolveSuffix; rw [hn]; rfl
  rcases hv with rfl | rfl
  · exact ⟨rfl, rfl, hname⟩
  · exact ⟨rfl, rfl, hname⟩

/-- Witness for C8 (amended) at a pipeline with a null name and a null
current value. -/
theorem null_empty_table_name_handling_witness :
    resolveTemplate ⟨1, none⟩ none = .ok none ∧
    sanitizeTableName none = .error "Table name cannot be null or empty" ∧
    (((⟨1, none⟩ : PipelineFlat).name = none ∨ (⟨1, none⟩ : PipelineFlat).name = some "") →
      ∀ suffix, resolveSuffix ⟨1, none⟩ suffix = .error "Table name cannot be null or empty") :=
  null_empty_table_name_handling ⟨1, none⟩ none (Or.inl rfl)

/-! ## Storage configuration factories
(configuration/OffsetConfigurationFactory.java and
configuration/SchemaHistoryConfigurationFactory.java)

Both factories read the globally configured storage settings off
`PipelineConfigGroup` and dispatch on the backend type tag; only the
`Jdbc` and `File` branches exist in the source, every other tag reaches
the `default` branch and raises a `DebeziumException`. -/

/-- One globally configured storage axis: `storage().type()` and
`storage().config()`. -/
structure StorageSettings where
  type : String
  config : List (String × String)
  deriving Repr, DecidableEq

/-- The `PipelineConfigGroup` as the factories and the controller read it:
`offset().storage()` plus `schema().internal()` / `schema().config()`. -/
structure PipelineConfigGroup where
  offsetStorage : StorageSettings
  schemaInternal : String
  schemaConfig : List (String × String)
  deriving Repr, DecidableEq

/-- The `Map.get` on a configuration map (null for an absent key). -/
def lookupConfig (cfg : List (String × String)) (k : String) : Option String :=
  (cfg.find? (fun e => e.fst = k)).map Prod.snd

/-- The `FileOffsetStore` / `FileSchemaHistoryStore`: only a file name. -/
structure FileStore where
  fileName : Option String
  deriving Repr, DecidableEq

/-- The `JdbcOffsetTableConfig` / `JdbcSchemaHistoryTableConfig`. -/
structure JdbcTableConfig where
  name : String
  deriving Repr, DecidableEq

/-- The `JdbcOffsetStore` / `JdbcSchemaHistoryStore`. -/
structure JdbcStore where
  url : Option String
  user : Option String
  password : Option String
  table : JdbcTableConfig
  deriving Repr, DecidableEq

/-- The operator-model `Offset`: a union whose variants are filled by the
builder's `withFile` / `withJdbc`.  The operator model also offers Kafka,
Redis, ConfigMap and InMemory variants, but the factory in the source
never constructs them, so only the two reachable variants are carried. -/
structure Offset where
  file : Option FileStore := none
  jdbc : Option JdbcStore := none
  deriving Repr, DecidableEq

/-- The operator-model `SchemaHistory` union, same shape as `Offset`. -/
structure SchemaHistory where
  file : Option FileStore := none
  jdbc : Option JdbcStore := none
  deriving Repr, DecidableEq

/-- The `OffsetConfigurationFactory.create`: switch over
`pipelineConfigGroup.offset().storage().type()` with branches for the Jdbc
and File backing-store class names and a throwing default. -/
def offsetCreate (g : PipelineConfigGroup) (p : PipelineFlat) : Except String Offset :=
  let cfgs := g.offsetStorage.config
  let ty := g.offsetStorage.type
  if ty = "io.debezium.storage.jdbc.offset.JdbcOffsetBackingStore" then do
    let tableName ← resolveSuffix p "offset"
    return { jdbc := some { url := lookupConfig cfgs "jdbc.url",
                            user := lookupConfig cfgs "jdbc.user",
                            password := lookupConfig cfgs "jdbc.password",
                            table := { name := tableName } } }
  else if ty = "org.apache.kafka.connect.storage.FileOffsetBackingStore" then
    .ok { file := some { fileName := lookupConfig cfgs "file.filename" } }
  else
    .error ("Offset type " ++ ty ++ " not supported")

/-- The `SchemaHistoryConfigurationFactory.create`.  Faithful to the source,
which reads `pipelineConfigGroup.offset().storage()` — the offset axis —
for both the type tag and the config map, although it dispatches against
the schema-history class names and reports "Schema history … not
supported". -/
def schemaHistoryCreate (g : PipelineConfigGroup) (p : PipelineFlat) :
    Except String SchemaHistory :=
  let cfgs := g.offsetStorage.config
  let ty := g.offsetStorage.type
  if ty = "io.debezium.storage.jdbc.history.JdbcSchemaHistory" then do
    let tableName ← resolveSuffix p "schema_history"
    return { jdbc := some { url := lookupConfig cfgs "jdbc.url",
                            user := lookupConfig cfgs "jdbc.user",
                            password := lookupConfig cfgs "jdbc.password",
                            table := { name := tableName } } }
  else if ty = "io.debezium.storage.file.history.FileSchemaHistory" then
    .ok { file := some { fileName := lookupConfig cfgs "file.filename" } }
  else
    .error ("Schema history " ++ ty ++ " not supported")

/-! ### Claims on the storage factories -/

/-- C1: with offset backend File and schema-history backend Jdbc globally
configured, the offset side does compile to the File variant with no table
entry, and the resolver does produce exactly
`"test_pipeline_schema_history"` for the pipeline named `"Test Pipeline!"`
— but `SchemaHistoryConfigurationFactory.create` dispatches on the offset
storage type tag, so it rejects the configuration instead of building the
Jdbc schema-history variant (contradicting
`SchemaHistoryConfigurationFactoryTest.jdbcSchemaHistory`). -/
theorem deploy_storage_compilation_scenario :
    (let g : PipelineConfigGroup :=
      { offsetStorage := { type := "org.apache.kafka.connect.storage.FileOffsetBackingStore",
                           config := [("file.filename", "offsets.dat")] },
        schemaInternal := "io.debezium.storage.jdbc.history.JdbcSchemaHistory",
        schemaConfig := [("jdbc.url", "jdbc:postgresql://localhost:5432/postgres"),
                         ("jdbc.user", "test"), ("jdbc.password", "password")] }
    let p : PipelineFlat := { id := 1, name := some "Test Pipeline!" }
    offsetCreate g p = .ok { file := some { fileName := some "offsets.dat" }, jdbc := none } ∧
    resolveSuffix p "schema_history" = .ok "test_pipeline_schema_history" ∧
    schemaHistoryCreate g p =
      .error "Schema history org.apache.kafka.connect.storage.FileOffsetBackingStore not supported") :=
  ⟨rfl, rfl, rfl⟩

/-- C2: the factories under the source reject the known Kafka and Redis
backend tags (contradicting `OffsetConfigurationFactoryTest.kafkaMapOffset`
and `SchemaHistoryConfigurationFactoryTest.redisMapSchemaHistory`, which
expect those variants to be built), while an unknown tag is indeed
rejected with a `DebeziumException` naming it. -/
theorem storage_dispatch_known_tags_rejected :
    (let p : PipelineFlat := { id := 1, name := some "test-pipeline" }
    offsetCreate
        { offsetStorage := { type := "org.apache.kafka.connect.storage.KafkaOffsetBackingStore",
                             config := [] },
          schemaInternal := "", schemaConfig := [] } p =
      .error "Offset type org.apache.kafka.connect.storage.KafkaOffsetBackingStore not supported" ∧
    schemaHistoryCreate
        { offsetStorage := { type := "io.debezium.storage.redis.history.RedisSchemaHistory",
                             config := [] },
          schemaInternal := "io.debezium.storage.redis.history.RedisSchemaHistory",
          schemaConfig := [] } p =
      .error "Schema history io.debezium.storage.redis.history.RedisSchemaHistory not supported" ∧
    offsetCreate
        { offsetStorage := { type := "io.custom.MyCustomOffset", config := [] },
          schemaInternal := "", schemaConfig := [] } p =
      .error "Offset type io.custom.MyCustomOffset not supported" ∧
    offsetCreate
        { offsetStorage := { type := "io.debezium.storage.jdbc.offset.JdbcOffsetBackingStore",
                             config := [("jdbc.url", "jdbc:postgresql://localhost:5432/postgres"),
                                        ("jdbc.user", "test"), ("jdbc.password", "password")] },
          schemaInternal := "", schemaConfig := [] } p =
      .ok { file := none,
            jdbc := some { url := some "jdbc:postgresql://localhost:5432/postgres",
                           user := some "test", password := some "password",
                           table := { name := "test_pipeline_offset" } } }) :=
  ⟨rfl, rfl, rfl, rfl⟩

/-! ## OperatorPipelineController.deploy: source config, transforms and
predicates (environment/operator/OperatorPipelineController.java) -/

/-- The operator API's `ConfigProperties`, extensionally: a string-keyed
property map.  `setProps` is a plain `put` and overwrites an existing
key. -/
def ConfigProps := String → Option String

/-- A fresh `ConfigProperties`. -/
def ConfigProps.empty : ConfigProps := fun _ => none

/-- The `setProps(key, value)`. -/
def ConfigProps.setProps (m : ConfigProps) (k : String) (v : Option String) : ConfigProps :=
  fun q => if q = k then v else m q

/-- The `setAllProps(map)`: copy every entry of a Java map (unique keys) into
the properties, overwriting existing entries. -/
def ConfigProps.setAllProps (m : ConfigProps) (entries : List (String × String)) : ConfigProps :=
  entries.foldl (fun acc e => acc.setProps e.fst (some e.snd)) m

/-- The source half of a pipeline view: connector type and config map. -/
structure SourceView where
  type : String
  config : List (String × String)

/-- The `deploy` lines 99-102: `setAllProps(source.getConfig())`, then two
unconditional `setProps` calls installing the signal/notification channel
defaults. -/
def compiledSourceConfig (source : SourceView) : ConfigProps :=
  ((ConfigProps.empty.setAllProps source.config).setProps
      "signal.enabled.channels" (some "source,in-process")).setProps
    "notification.enabled.channels" (some "log")

/-- C7 counterexample: a caller-supplied `signal.enabled.channels` entry
does not survive compilation — the default overwrites it. -/
theorem source_defaults_overwrite :
    (let source : SourceView :=
      ⟨"io.debezium.connector.postgresql.PostgresConnector",
        [("signal.enabled.channels", "kafka")]⟩
    compiledSourceConfig source "signal.enabled.channels" = some "source,in-process" ∧
    lookupConfig source.config "signal.enabled.channels" = some "kafka" ∧
    ("kafka" : String) ≠ "source,in-process") :=
  ⟨rfl, rfl, by decide⟩

/-- C7 (amended): `deploy` always installs the two channel defaults,
overwriting any caller-supplied values for those two keys; every other
key/value pair of the source config appears unchanged in the compiled
source configuration. -/
theorem source_config_frame (source : SourceView) (k : String)
    (h1 : k ≠ "signal.enabled.channels") (h2 : k ≠ "notification.enabled.channels") :
    compiledSourceConfig source k = (ConfigProps.empty.setAllProps source.config) k ∧
    compiledSourceConfig source "signal.enabled.channels" = some "source,in-process" ∧
    compiledSourceConfig source "notification.enabled.channels" = some "log" := by
  refine ⟨?_, ?_, ?_⟩
  · show ConfigProps.setProps _ _ _ _ = _
    unfold ConfigProps.setProps
    rw [if_neg h2, if_neg h1]
  · show ConfigProps.setProps _ _ _ _ = _
    unfold ConfigProps.setProps
    rw [if_neg (by decide), if_pos rfl]
  · show ConfigProps.setProps _ _ _ _ = _
    unfold ConfigProps.setProps
    rw [if_pos rfl]

/-- Witness for C7 (amended) at a concrete one-entry source config. -/
theorem source_config_frame_witness :
    compiledSourceConfig ⟨"c", [("topic.prefix", "inv")]⟩ "topic.prefix" =
      (ConfigProps.empty.setAllProps [("topic.prefix", "inv")]) "topic.prefix" ∧
    compiledSourceConfig ⟨"c", [("topic.prefix", "inv")]⟩ "signal.enabled.channels" =
      some "source,in-process" ∧
    compiledSourceConfig ⟨"c", [("topic.prefix", "inv")]⟩ "notification.enabled.channels" =
      some "log" :=
  source_config_frame ⟨"c", [("topic.prefix", "inv")]⟩ "topic.prefix"
    (by decide) (by decide)

/-- A transform's optional predicate view: type, config, negate flag. -/
structure PredicateView where
  type : String
  config : List (String × String)
  negate : Bool

/-- The `Transform` view as the controller reads it; `predicate` is
`none` when `getPredicate()` returns null. -/
structure Transform where
  id : Nat
  type : String
  config : List (String × String)
  predicate : Option PredicateView

/-- The `getPredicateName`: `String.format("%s%s", "p", transform.getId())`. -/
def getPredicateName (t : Transform) : String :=
  "p" ++ toString t.id

/-- The operator-model `Predicate` built by `buildPredicate`. -/
structure PredicateK where
  type : String
  config : ConfigProps

/-- The operator-model `Transformation` built by `buildTransformation`. -/
structure Transformation where
  type : String
  config : ConfigProps
  predicate : String
  negate : Bool

/-- The `buildPredicate`: dereferences `transform.getPredicate()` with no null
check, so a transform without a predicate raises. -/
def buildPredicate (t : Transform) : Except String PredicateK :=
  match t.predicate with
  | none => .error "java.lang.NullPointerException"
  | some pr => .ok { type := pr.type, config := ConfigProps.empty.setAllProps pr.config }

/-- The `buildTransformation`: attaches the generated alias unconditionally and
reads `transform.getPredicate().isNegate()` with no null check. -/
def buildTransformation (t : Transform) : Except String Transformation :=
  match t.predicate with
  | none => .error "java.lang.NullPointerException"
  | some pr => .ok { type := t.type, config := ConfigProps.empty.setAllProps t.config,
                     predicate := getPredicateName t, negate := pr.negate }

/-- The `deploy` lines 121-128: the transformation list and the predicate map,
each built from every transform of the pipeline (there is no
null-predicate filter; `Collectors.toMap` would additionally reject
duplicate aliases, which unique transform identities preclude). -/
def compileTransforms (ts : List Transform) :
    Except String (List Transformation × List (String × PredicateK)) := do
  let transformations ← ts.mapM buildTransformation
  let predicates ← ts.mapM (fun t => do
      let pr ← buildPredicate t
      return (getPredicateName t, pr))
  return (transformations, predicates)

/-! ### Claims on transforms and predicates -/

/-- C4: a transform with no predicate attached does not compile to a
transformation without an alias — `buildTransformation` and
`buildPredicate` dereference the absent predicate and the whole
transform compilation of `deploy` fails. -/
theorem transform_without_predicate_fails :
    buildTransformation { id := 1, type := "io.debezium.transforms.Filter",
                          config := [], predicate := none } =
      .error "java.lang.NullPointerException" ∧
    buildPredicate { id := 1, type := "io.debezium.transforms.Filter",
                     config := [], predicate := none } =
      .error "java.lang.NullPointerException" ∧
    compileTransforms [{ id := 1, type := "io.debezium.transforms.Filter",
                         config := [], predicate := none }] =
      .error "java.lang.NullPointerException" :=
  ⟨rfl, rfl, rfl⟩

/-- C9: the generated predicate alias is exactly `"p" ++ id` (so id 7
yields `"p7"`), the alias depends on nothing but the transform's identity,
and compiling the same transform list twice yields identical
transformation lists and predicate maps. -/
theorem predicate_alias_deterministic :
    (∀ t : Transform, getPredicateName t = "p" ++ toString t.id) ∧
    (getPredicateName { id := 7, type := "t", config := [], predicate := none } = "p7") ∧
    (∀ t t' : Transform, t.id = t'.id → getPredicateName t = getPredicateName t') ∧
    (∀ ts ts' : List Transform, ts = ts' → compileTransforms ts = compileTransforms ts') := by
  refine ⟨fun t => rfl, rfl, ?_, ?_⟩
  · intro t t' h
    unfold getPredicateName
    rw [h]
  · intro ts ts' h
    rw [h]

/-! ## Connection validators
(environment/connection/destination/QdrantConnectionValidator.java,
KinesisConnectionValidator.java, MilvusConnectionValidator.java,
RedisConnectionValidator.java)

Each validator receives a nullable `Connection` view bearing a loosely
typed `Map<String, Object>` configuration, runs parameter validation
first, and only then the live protocol check.  The live check talks to a
network SDK, so it enters the embedding as an oracle argument: the
validator's result may consult the oracle only after parameter validation
has passed. -/

/-- A configuration value (`Object`): the types the validators inspect.
`jint` is `java.lang.Integer`, `jlong` any other `java.lang.Number`,
`jbool` a `Boolean` (not a `Number` in Java). -/
inductive JValue where
  | jstr (s : String)
  | jint (i : Int)
  | jlong (i : Int)
  | jbool (b : Bool)
  deriving Repr, DecidableEq

/-- The `Object.toString()` for the modelled values. -/
def JValue.toStr : JValue → String
  | .jstr s => s
  | .jint i => toString i
  | .jlong i => toString i
  | .jbool b => if b then "true" else "false"

/-- The `Map<String, Object>` with possibly-null values. -/
def JConfig := List (String × Option JValue)

/-- The `config.get(k)`, identifying the absent-key and null-value cases the
way the validators' `!containsKey(k) || get(k) == null` guards do. -/
def JConfig.getV (cfg : JConfig) (k : String) : Option JValue :=
  ((cfg.find? (fun e => e.fst = k)).map Prod.snd).join

/-- The `ConnectionValidationResult`: valid flag plus (nullable) message. -/
structure ConnectionValidationResult where
  valid : Bool
  message : Option String
  deriving Repr, DecidableEq

/-- The `ConnectionValidationResult.successful()`. -/
def ConnectionValidationResult.successful : ConnectionValidationResult :=
  { valid := true, message := none }

/-- The `ConnectionValidationResult.failed(message)`. -/
def ConnectionValidationResult.failed (m : String) : ConnectionValidationResult :=
  { valid := false, message := some m }

/-- The `Connection` view handed to `validate`: a display name and the
configuration map. -/
structure ConnectionView where
  name : String
  config : JConfig

/-- Java `trim`: strip leading and trailing characters with
code point at most U+0020 (space and control characters). -/
def trimJava (s : String) : String :=
  String.mk (((s.data.dropWhile (fun c => c.toNat ≤ 32)).reverse.dropWhile
    (fun c => c.toNat ≤ 32)).reverse)

/-- Java `toLowerCase` restricted to character-wise lowering. -/
def lowerJava (s : String) : String :=
  String.mk (s.data.map Char.toLower)

/-- The `Integer.parseInt`: optional sign, decimal digits, 32-bit range. -/
def parseIntJava (s : String) : Except String Int :=
  let signed : Int × List Char :=
    match s.data with
    | '-' :: rest => (-1, rest)
    | '+' :: rest => (1, rest)
    | l => (1, l)
  if signed.snd.isEmpty then .error "NumberFormatException"
  else if signed.snd.all (fun c => isDigitChar c) then
    let v : Int := signed.fst * (signed.snd.foldl (fun acc c => acc * 10 + (c.toNat - 48)) 0 : Nat)
    if -2147483648 ≤ v ∧ v ≤ 2147483647 then .ok v else .error "NumberFormatException"
  else .error "NumberFormatException"

/-- The `Number.intValue()` on a non-`Integer` number: 32-bit truncation. -/
def int32Trunc (i : Int) : Int :=
  let r := i.emod 4294967296
  if 2147483648 ≤ r then r - 4294967296 else r

/-! ### QdrantConnectionValidator -/

/-- The `QdrantConnectionValidator.getPortValue`: `Integer` as-is, `String`
parsed, other `Number`s truncated, anything else — including a present
`Boolean` or a null — falls through to the default port 6334. -/
def qdrantGetPortValue (cfg : JConfig) : Except String Int :=
  match cfg.getV "port" with
  | some (.jint i) => .ok i
  | some (.jstr s) => parseIntJava s
  | some (.jlong i) => .ok (int32Trunc i)
  | some (.jbool _) => .ok 6334
  | none => .ok 6334

/-- The `getBooleanValue`: `Boolean` as-is, `String` via
`Boolean.parseBoolean` (case-insensitive `"true"`), else the default. -/
def getBooleanValue (cfg : JConfig) (k : String) (dflt : Bool) : Bool :=
  match cfg.getV k with
  | some (.jbool b) => b
  | some (.jstr s) => lowerJava s = "true"
  | _ => dflt

/-- The `getStringValue`: `toString()` of a non-null value, else null. -/
def getStringValue (cfg : JConfig) (k : String) : Option String :=
  (cfg.getV k).map JValue.toStr

/-- The `QdrantConnectionValidator.validateConnectionParameters`: hostname
present and non-blank, port present, port value parsing and in
`[1, 65535]`. -/
def qdrantValidateParams (cfg : JConfig) : ConnectionValidationResult :=
  match cfg.getV "hostname" with
  | none => .failed "Hostname must be specified"
  | some hv =>
      if (trimJava hv.toStr).isEmpty then .failed "Hostname must be specified"
      else
        match cfg.getV "port" with
        | none => .failed "Port must be specified"
        | some _ =>
            match qdrantGetPortValue cfg with
            | .error _ => .failed "Port must be a valid integer"
            | .ok port =>
                if port ≤ 0 ∨ 65535 < port then .failed "Port must be between 1 and 65535"
                else .successful

/-- The `QdrantConnectionValidator.validate`: null guard, parameter phase,
then the live phase (an oracle over hostname, port, useTls, apiKey). -/
def qdrantValidate (live : String → Int → Bool → Option String → ConnectionValidationResult)
    (conn : Option ConnectionView) : ConnectionValidationResult :=
  match conn with
  | none => .failed "Connection configuration cannot be null"
  | some c =>
      let pv := qdrantValidateParams c.config
      if pv.valid = false then .failed (pv.message.getD "")
      else
        let hostname := ((c.config.getV "hostname").map JValue.toStr).getD ""
        match qdrantGetPortValue c.config with
        | .error e => .failed ("Validation failed due to unexpected error: " ++ e)
        | .ok port => live hostname port (getBooleanValue c.config "useTls" false)
            (getStringValue c.config "apiKey")

/-! ### KinesisConnectionValidator -/

/-- The `KinesisConnectionValidator.validateConfiguration`: region and stream
name present and non-blank. -/
def kinesisValidateConfiguration (cfg : JConfig) : ConnectionValidationResult :=
  match cfg.getV "region" with
  | none => .failed "Region must be specified"
  | some rv =>
      if (trimJava rv.toStr).isEmpty then .failed "Region must be specified"
      else
        match cfg.getV "stream" with
        | none => .failed "Stream name must be specified"
        | some sv =>
            if (trimJava sv.toStr).isEmpty then .failed "Stream name must be specified"
            else .successful

/-- The `KinesisConnectionValidator.validate`: null guard, parameter phase,
then the live phase over region, stream and partition key. -/
def kinesisValidate (live : String → String → String → ConnectionValidationResult)
    (conn : Option ConnectionView) : ConnectionValidationResult :=
  match conn with
  | none => .failed "Connection configuration cannot be null"
  | some c =>
      let cv := kinesisValidateConfiguration c.config
      if cv.valid = false then cv
      else
        let region := trimJava (((c.config.getV "region").map JValue.toStr).getD "")
        let stream := trimJava (((c.config.getV "stream").map JValue.toStr).getD "")
        let partitionKey := ((c.config.getV "partitionKey").map JValue.toStr).getD "test-partition"
        live region stream partitionKey

/-! ### MilvusConnectionValidator -/

/-- The `MilvusConnectionValidator.validateConfiguration`: URI present,
non-blank, and starting with `http://` or `https://`. -/
def milvusValidateConfiguration (cfg : JConfig) : ConnectionValidationResult :=
  match cfg.getV "uri" with
  | none => .failed "URI must be specified"
  | some uv =>
      if (trimJava uv.toStr).isEmpty then .failed "URI must be specified"
      else
        let uri := trimJava uv.toStr
        if ¬("http://".isPrefixOf uri) ∧ ¬("https://".isPrefixOf uri) then
          .failed "URI must start with http:// or https://"
        else .successful

/-- The `MilvusConnectionValidator.validate`: null guard, parameter phase,
then the live phase over uri, database, token and username/password. -/
def milvusValidate
    (live : String → Option String → Option String → Option (String × String) →
      ConnectionValidationResult)
    (conn : Option ConnectionView) : ConnectionValidationResult :=
  match conn with
  | none => .failed "Connection configuration cannot be null"
  | some c =>
      let cv := milvusValidateConfiguration c.config
      if cv.valid = false then cv
      else
        let uri := trimJava (((c.config.getV "uri").map JValue.toStr).getD "")
        let database :=
          match c.config.getV "database" with
          | some dv => if (trimJava dv.toStr).isEmpty then none else some dv.toStr
          | none => none
        let token :=
          match c.config.getV "token" with
          | some tv => if (trimJava tv.toStr).isEmpty then none else some tv.toStr
          | none => none
        let userpass :=
          match c.config.getV "username", c.config.getV "password" with
          | some uv, some pv => some (uv.toStr, pv.toStr)
          | _, _ => none
        live uri database token (if token.isSome then none else userpass)

/-! ### RedisConnectionValidator -/

/-- The `RedisConnectionValidator.validateConfiguration`: host present and
non-blank, port present and parsing as an integer, and `useSsl` — when
present — equal to `"true"` or `"false"` after trim/lowercase. -/
def redisValidateConfiguration (cfg : JConfig) : ConnectionValidationResult :=
  match cfg.getV "host" with
  | none => .failed "Host must be specified"
  | some hv =>
      if (trimJava hv.toStr).isEmpty then .failed "Host must be specified"
      else
        match cfg.getV "port" with
        | none => .failed "Port must be specified"
        | some pv =>
            match parseIntJava pv.toStr with
            | .error _ => .failed "Port must be a valid integer"
            | .ok _ =>
                match cfg.getV "useSsl" with
                | some sv =>
                    let s := lowerJava (trimJava sv.toStr)
                    if s ≠ "true" ∧ s ≠ "false" then
                      .failed "useSsl must be \x27true\x27 or \x27false\x27 if specified"
                    else .successful
                | none => .successful

/-- The `RedisConnectionValidator.validate`: null guard, parameter phase, then
the live phase over host, port, username, password and useSsl. -/
def redisValidate
    (live : String → Int → Option String → Option String → Bool → ConnectionValidationResult)
    (conn : Option ConnectionView) : ConnectionValidationResult :=
  match conn with
  | none => .failed "Connection configuration cannot be null"
  | some c =>
      let cv := redisValidateConfiguration c.config
      if cv.valid = false then cv
      else
        let host := trimJava (((c.config.getV "host").map JValue.toStr).getD "")
        match parseIntJava (trimJava (((c.config.getV "port").map JValue.toStr).getD "")) with
        | .error e => .failed ("Unexpected error: " ++ e)
        | .ok port =>
            let username := (c.config.getV "username").map (fun v => trimJava v.toStr)
            let password := (c.config.getV "password").map JValue.toStr
            let useSsl :=
              match c.config.getV "useSsl" with
              | some sv => lowerJava (trimJava sv.toStr) = "true"
              | none => false
            live host port username password useSsl

/-! ### Claims on the validators -/

/-- C3: in every validator, a configuration missing a required field is
rejected with a message naming that exact field, and the live check is
never attempted: the result does not depend on the live oracle, so even a
config whose remaining fields would fail the live phase gets the
missing-field message. -/
theorem missing_required_field_fails_before_live (name : String) (cfg : JConfig) :
    (cfg.getV "hostname" = none →
      ∀ l₁ l₂, qdrantValidate l₁ (some ⟨name, cfg⟩) = .failed "Hostname must be specified" ∧
        qdrantValidate l₁ (some ⟨name, cfg⟩) = qdrantValidate l₂ (some ⟨name, cfg⟩)) ∧
    (∀ hv, cfg.getV "hostname" = some hv → (trimJava hv.toStr).isEmpty = false →
      cfg.getV "port" = none →
      ∀ l₁ l₂, qdrantValidate l₁ (some ⟨name, cfg⟩) = .failed "Port must be specified" ∧
        qdrantValidate l₁ (some ⟨name, cfg⟩) = qdrantValidate l₂ (some ⟨name, cfg⟩)) ∧
    (cfg.getV "region" = none →
      ∀ l₁ l₂, kinesisValidate l₁ (some ⟨name, cfg⟩) = .failed "Region must be specified" ∧
        kinesisValidate l₁ (some ⟨name, cfg⟩) = kinesisValidate l₂ (some ⟨name, cfg⟩)) ∧
    (∀ rv, cfg.getV "region" = some rv → (trimJava rv.toStr).isEmpty = false →
      cfg.getV "stream" = none →
      ∀ l₁ l₂, kinesisValidate l₁ (some ⟨name, cfg⟩) = .failed "Stream name must be specified" ∧
        kinesisValidate l₁ (some ⟨name, cfg⟩) = kinesisValidate l₂ (some ⟨name, cfg⟩)) ∧
    (cfg.getV "uri" = none →
      ∀ l₁ l₂, milvusValidate l₁ (some ⟨name, cfg⟩) = .failed "URI must be specified" ∧
        milvusValidate l₁ (some ⟨name, cfg⟩) = milvusValidate l₂ (some ⟨name, cfg⟩)) ∧
    (cfg.getV "host" = none →
      ∀ l₁ l₂, redisValidate l₁ (some ⟨name, cfg⟩) = .failed "Host must be specified" ∧
        redisValidate l₁ (some ⟨name, cfg⟩) = redisValidate l₂ (some ⟨name, cfg⟩)) ∧
    (∀ hv, cfg.getV "host" = some hv → (trimJava hv.toStr).isEmpty = false →
      cfg.getV "port" = none →
      ∀ l₁ l₂, redisValidate l₁ (some ⟨name, cfg⟩) = .failed "Port must be specified" ∧
        redisValidate l₁ (some ⟨name, cfg⟩) = redisValidate l₂ (some ⟨name, cfg⟩)) := by
  refine ⟨?_, ?_, ?_, ?_, ?_, ?_, ?_⟩
  · intro h l₁ l₂
    constructor <;>
      simp [qdrantValidate, qdrantValidateParams, h, ConnectionValidationResult.failed]
  · intro hv hhv hblank hport l₁ l₂
    constructor <;>
      simp [qdrantValidate, qdrantValidateParams, hhv, hblank, hport,
        ConnectionValidationResult.failed]
  · intro h l₁ l₂
    constructor <;>
      simp [kinesisValidate, kinesisValidateConfiguration, h, ConnectionValidationResult.failed]
  · intro rv hrv hblank hstream l₁ l₂
    constructor <;>
      simp [kinesisValidate, kinesisValidateConfiguration, hrv, hblank, hstream,
        ConnectionValidationResult.failed]
  · intro h l₁ l₂
    constructor <;>
      simp [milvusValidate, milvusValidateConfiguration, h, ConnectionValidationResult.failed]
  · intro h l₁ l₂
    constructor <;>
      simp [redisValidate, redisValidateConfiguration, h, ConnectionValidationResult.failed]
  · intro hv hhv hblank hport l₁ l₂
    constructor <;>
      simp [redisValidate, redisValidateConfiguration, hhv, hblank, hport,
        ConnectionValidationResult.failed]

/-- Witness for C3: the empty configuration is missing every required
field; each validator reports its first required field and ignores the
live oracle (here: one oracle that would succeed, one that would fail). -/
theorem missing_required_field_witness :
    qdrantValidate (fun _ _ _ _ => .successful) (some ⟨"w", []⟩) =
      .failed "Hostname must be specified" ∧
    qdrantValidate (fun _ _ _ _ => .successful) (some ⟨"w", []⟩) =
      qdrantValidate (fun _ _ _ _ => .failed "boom") (some ⟨"w", []⟩) ∧
    kinesisValidate (fun _ _ _ => .successful) (some ⟨"w", []⟩) =
      .failed "Region must be specified" ∧
    milvusValidate (fun _ _ _ _ => .successful) (some ⟨"w", []⟩) =
      .failed "URI must be specified" ∧
    redisValidate (fun _ _ _ _ _ => .successful) (some ⟨"w", []⟩) =
      .failed "Host must be specified" := by
  have h := missing_required_field_fails_before_live "w" []
  exact ⟨(h.1 rfl _ (fun _ _ _ _ => .failed "boom")).1,
    (h.1 rfl _ (fun _ _ _ _ => .failed "boom")).2,
    (h.2.2.1 rfl (fun _ _ _ => .successful) (fun _ _ _ => .successful)).1,
    (h.2.2.2.2.1 rfl (fun _ _ _ _ => .successful) (fun _ _ _ _ => .successful)).1,
    (h.2.2.2.2.2.1 rfl (fun _ _ _ _ _ => .successful) (fun _ _ _ _ _ => .successful)).1⟩

/-- C10: a `Boolean` port value — neither `Integer`, `String` nor `Number`
— passes Qdrant parameter validation by silently resolving to the default
port 6334, and validation proceeds to the live phase with port 6334. -/
theorem qdrant_boolean_port_uses_default
    (live : String → Int → Bool → Option String → ConnectionValidationResult) :
    qdrantGetPortValue [("hostname", some (.jstr "localhost")), ("port", some (.jbool true))] =
      .ok 6334 ∧
    qdrantValidateParams [("hostname", some (.jstr "localhost")), ("port", some (.jbool true))] =
      .successful ∧
    qdrantValidate live
        (some ⟨"conn", [("hostname", some (.jstr "localhost")), ("port", some (.jbool true))]⟩) =
      live "localhost" 6334 false none :=
  ⟨rfl, rfl, rfl⟩

end DebeziumPlatform
